import Mathlib

/-!
Verification of the hero CRT effect controller
(`src/assets/hero-crt-effect.js`).

The controller's per-frame pointer dynamics, container capture, resize
debounce, shader curvature warp, and teardown are embedded here over exact
rationals (the JS source computes with IEEE doubles; the claims under
study are algebraic and are settled in exact arithmetic).
-/

namespace HeroCRT

/-! ## Effect parameters (constructor, lines 154-160) -/

/-- `this.curvature = 0.12` -/
def curvature : ℚ := 12/100

/-- `this.mouseSensitivity = 0.008` -/
def mouseSensitivity : ℚ := 8/1000

/-- `this.momentum = 0.85` -/
def momentum : ℚ := 17/20

/-! ## Pointer/animation state

The mutable per-frame fields of `HeroCRTEffect` (constructor,
lines 145-152): smoothed offset `mouseX/mouseY`, target offset
`targetMouseX/targetMouseY`, velocity, hover flag, and the time
accumulator advanced by `render`. -/

structure PointerState where
  mouseX : ℚ
  mouseY : ℚ
  targetMouseX : ℚ
  targetMouseY : ℚ
  velocityX : ℚ
  velocityY : ℚ
  isHovering : Bool
  time : ℚ
deriving DecidableEq, Repr

/-- State right after the constructor (lines 145-152): everything zero,
not hovering. -/
def initialState : PointerState :=
  { mouseX := 0, mouseY := 0, targetMouseX := 0, targetMouseY := 0,
    velocityX := 0, velocityY := 0, isHovering := false, time := 0 }

/-! ## mousemove handler (lines 340-362)

The DOM event supplies `e.clientX`/`e.clientY`; the container rect
supplies `left/top/width/height`. -/

def mouseMoveHandler (sens : ℚ) (s : PointerState)
    (clientX clientY rectLeft rectTop rectWidth rectHeight : ℚ) : PointerState :=
  let wasHovering := s.isHovering
  let s1 := { s with isHovering := true }
  -- "If mouse just entered, reset to center first" (lines 345-352)
  let s2 := if !wasHovering then
      { s1 with targetMouseX := 0, targetMouseY := 0, mouseX := 0, mouseY := 0,
                velocityX := 0, velocityY := 0 }
    else s1
  let x := (clientX - rectLeft) / rectWidth
  let y := (clientY - rectTop) / rectHeight
  -- "Normalize to -0.5 to 0.5 range (center = 0)" (lines 358-361)
  { s2 with targetMouseX := (x - 1/2) * sens, targetMouseY := (y - 1/2) * sens }

/-- mouseleave handler (lines 364-367): clears the hover flag, keeps the
current target. -/
def mouseLeaveHandler (s : PointerState) : PointerState :=
  { s with isHovering := false }

/-! ## Per-frame update (`render`, lines 455-536)

The four `Math.random()`-dependent values of one frame are passed in
explicitly: `g` gates the rare glitch (`Math.random() < 0.001`), `gx/gy`
drive its nudge; `t` gates the tiny twitch (`Math.random() < 0.01`),
`tx/ty` drive its nudge. A genuine `Math.random()` value lies in `[0,1)`. -/

structure RandomDraws where
  g : ℚ
  gx : ℚ
  gy : ℚ
  t : ℚ
  tx : ℚ
  ty : ℚ
deriving DecidableEq, Repr

def unitRange (x : ℚ) : Prop := 0 ≤ x ∧ x < 1

instance (x : ℚ) : Decidable (unitRange x) := by
  unfold unitRange; infer_instance

def drawsInRange (r : RandomDraws) : Prop :=
  unitRange r.g ∧ unitRange r.gx ∧ unitRange r.gy ∧
  unitRange r.t ∧ unitRange r.tx ∧ unitRange r.ty

instance (r : RandomDraws) : Decidable (drawsInRange r) := by
  unfold drawsInRange; infer_instance

/-- The pointer-state effect of one `render` call (lines 462-494 and the
time increment of line 504). The WebGL uniform upload and draw
(lines 496-532) read the state but do not change it, and the loop
rescheduling (line 535) is outside the state update. -/
def render (s : PointerState) (r : RandomDraws) : PointerState :=
  let s1 :=
    if !s.isHovering then
      -- idle glitches (lines 466-476)
      if r.g < 1/1000 then
        { s with velocityX := s.velocityX + (r.gx - 1/2) * (2/1000),
                 velocityY := s.velocityY + (r.gy - 1/2) * (2/1000) }
      else if r.t < 1/100 then
        { s with velocityX := s.velocityX + (r.tx - 1/2) * (5/10000),
                 velocityY := s.velocityY + (r.ty - 1/2) * (5/10000) }
      else s
    else s
  -- momentum-based mouse interpolation (lines 479-494)
  let deltaX := s1.targetMouseX - s1.mouseX
  let deltaY := s1.targetMouseY - s1.mouseY
  let attraction : ℚ := if s1.isHovering then 1/10 else 2/100
  let vX := (s1.velocityX + deltaX * attraction) * momentum
  let vY := (s1.velocityY + deltaY * attraction) * momentum
  { s1 with velocityX := vX, velocityY := vY,
            mouseX := s1.mouseX + vX, mouseY := s1.mouseY + vY,
            time := s1.time + 16/1000 }

/-! ## Shader curvature warp (fragment shader, lines 35-41 and 69-80)

`distort` from the fragment shader. The GLSL computes
`dist = length(coord)` and uses only `dist * dist`, which equals
`coord.x^2 + coord.y^2` exactly, so the model works with the squared
length directly and stays in exact arithmetic. -/

def distort (c : ℚ) (uv : ℚ × ℚ) : ℚ × ℚ :=
  let center : ℚ × ℚ := (1/2, 1/2)
  let coord : ℚ × ℚ := (uv.1 - center.1, uv.2 - center.2)
  let distSq : ℚ := coord.1 ^ 2 + coord.2 ^ 2
  let factor : ℚ := 1 + c * distSq
  (center.1 + coord.1 * factor, center.2 + coord.2 * factor)

/-- The discard test of `main` (lines 76-80): the fragment is rendered
black when the warped coordinate leaves `[0,1] x [0,1]`. -/
def discarded (c : ℚ) (uv : ℚ × ℚ) : Prop :=
  (distort c uv).1 < 0 ∨ (distort c uv).1 > 1 ∨
  (distort c uv).2 < 0 ∨ (distort c uv).2 > 1

instance (c : ℚ) (uv : ℚ × ℚ) : Decidable (discarded c uv) := by
  unfold discarded; infer_instance

/-! ## Container capture (`captureContainer`, lines 400-453)

The DOM inputs of one capture: the container (rect, computed background
color, and the media elements matched by
`querySelectorAll('img, video, canvas')`) and the source-canvas raster
size. `elemId` models DOM node identity (so `el === this.canvas` is
`el.elemId = canvasId`), and `drawFails` models `ctx.drawImage` throwing
on that element (e.g. a cross-origin-tainted image). -/

structure ElemStyle where
  display : String
  visibility : String
  opacity : String
deriving DecidableEq, Repr

structure Rect where
  left : ℚ
  top : ℚ
  width : ℚ
  height : ℚ
deriving DecidableEq, Repr

structure MediaElement where
  elemId : Nat
  style : ElemStyle
  rect : Rect
  drawFails : Bool
deriving DecidableEq, Repr

structure Container where
  rect : Rect
  backgroundColor : String
  elements : List MediaElement
deriving DecidableEq, Repr

/-- The controller fields read by `captureContainer`: `this.container`,
`this.sourceContext`, `this.canvas` (as its node id) and the
source-canvas size set by `resize`. -/
structure CaptureEnv where
  container : Option Container
  sourceContextPresent : Bool
  canvasId : Nat
  sourceWidth : ℚ
  sourceHeight : ℚ

/-- One recorded `ctx.drawImage(el, x, y, w, h)` call (line 443). -/
structure DrawOp where
  elemId : Nat
  x : ℚ
  y : ℚ
  w : ℚ
  h : ℚ
deriving DecidableEq, Repr

/-- The content of the source canvas after a capture: the background fill
(lines 409-419) followed by the successful element draws. -/
structure Snapshot where
  fillStyle : String
  ops : List DrawOp
deriving DecidableEq, Repr

/-- `ctx.drawImage` can throw (cross-origin taint); the fallible call is
modelled in `Except`. -/
def drawImage (el : MediaElement) (x y w h : ℚ) : Except Unit DrawOp :=
  if el.drawFails then .error () else .ok ⟨el.elemId, x, y, w, h⟩

/-- Background fill colour (lines 413-418): the container's computed
background if it is truthy and neither fully-transparent spelling,
otherwise black. -/
def fillColor (k : Container) : String :=
  if k.backgroundColor ≠ "" ∧ k.backgroundColor ≠ "rgba(0, 0, 0, 0)" ∧
      k.backgroundColor ≠ "transparent" then
    k.backgroundColor
  else "#000000"

/-- The `forEach` body of lines 428-449 acting on the accumulated draw
list: skip the controller's own canvas (line 430), check the computed
style (line 433), position the element relative to the container and
check bounds (lines 435-442), then attempt the draw with the `try/catch`
of lines 434-447 — a throwing `drawImage` contributes nothing and
iteration continues. -/
def drawElement (canvasId : Nat) (crect : Rect) (width height : ℚ)
    (acc : List DrawOp) (el : MediaElement) : List DrawOp :=
  if el.elemId = canvasId then acc
  else if el.style.display ≠ "none" ∧ el.style.visibility ≠ "hidden" ∧
      el.style.opacity ≠ "0" then
    let x := el.rect.left - crect.left
    let y := el.rect.top - crect.top
    let w := el.rect.width
    let h := el.rect.height
    if x + w > 0 ∧ y + h > 0 ∧ x < width ∧ y < height then
      match drawImage el x y w h with
      | .ok op => acc ++ [op]
      | .error _ => acc
    else acc
  else acc

/-- `captureContainer` (lines 400-453). Returns `none` on the early
`return null` (missing container or 2D context, lines 401-403). The
`mediaElements.length > 0` guard of line 425 is subsumed by folding over
a possibly-empty list. -/
def captureContainer (c : CaptureEnv) : Option Snapshot :=
  match c.container with
  | none => none
  | some k =>
    if c.sourceContextPresent = false then none
    else
      some ⟨fillColor k,
        k.elements.foldl
          (drawElement c.canvasId k.rect c.sourceWidth c.sourceHeight) []⟩

/-- The draw an element produces when it is kept (container-relative
position, element size). -/
def elementOp (crect : Rect) (el : MediaElement) : DrawOp :=
  ⟨el.elemId, el.rect.left - crect.left, el.rect.top - crect.top,
    el.rect.width, el.rect.height⟩

/-- Which elements end up drawn: not the controller's own canvas, not
hidden, intersecting the raster, and not failing to draw. -/
def elementKept (canvasId : Nat) (crect : Rect) (width height : ℚ)
    (el : MediaElement) : Bool :=
  !(decide (el.elemId = canvasId)) &&
  decide (el.style.display ≠ "none" ∧ el.style.visibility ≠ "hidden" ∧
    el.style.opacity ≠ "0") &&
  decide (el.rect.left - crect.left + el.rect.width > 0 ∧
    el.rect.top - crect.top + el.rect.height > 0 ∧
    el.rect.left - crect.left < width ∧
    el.rect.top - crect.top < height) &&
  !el.drawFails

/-! ## Resize debounce (`setupResize`, lines 310-333)

Each resize event (window listener or ResizeObserver callback) runs
`clearTimeout` on the pending timer and schedules a fresh 100ms timer
whose expiry performs the resize and re-capture. The stream of event
timestamps is processed in time order; a pending timer whose deadline has
already passed when the next event arrives has fired (its `clearTimeout`
is a no-op), and the deadline is recorded as a re-capture time. -/

def debounceFires : List ℚ → Option ℚ → List ℚ
  | [], pending =>
    (match pending with
     | some d => [d]
     | none => [])
  | tm :: rest, pending =>
    (match pending with
     | some d => if d ≤ tm then [d] else []
     | none => []) ++ debounceFires rest (some (tm + 100))

/-- The re-capture times produced by a time-ordered list of resize
events, starting with no pending timer. -/
def recaptureTimes (events : List ℚ) : List ℚ := debounceFires events none

/-- A burst: time-ordered resize events whose consecutive gaps are under
the 100ms debounce delay. -/
def burst : List ℚ → Prop
  | [] => True
  | [_] => True
  | a :: b :: rest => a ≤ b ∧ b < a + 100 ∧ burst (b :: rest)

/-! ## Teardown (`destroy`, lines 538-556)

The controller fields `destroy` reads (which may be null after a
partially failed initialization) together with the browser-side
resources it releases. Re-cancelling a frame, re-removing a listener and
re-deleting a GL program or texture are no-ops in the platform, so the
released resources are flags that deletion simply clears. `none` models
an uncaught TypeError (calling a method on a null object). -/

structure ControllerRes where
  animationFrameId : Option Nat
  containerPresent : Bool
  mouseMoveHandlerSet : Bool
  glPresent : Bool
  programPresent : Bool
  texturePresent : Bool
  framePending : Bool
  moveListenerAttached : Bool
  leaveListenerAttached : Bool
  programAlive : Bool
  textureAlive : Bool
deriving DecidableEq, Repr

/-- `cancelAnimationFrame(id)` (line 540): a global function, safe for
any id. -/
def cancelFrame (c : ControllerRes) : ControllerRes :=
  { c with framePending := false }

/-- `this.container.removeEventListener(...)` twice (lines 545-546):
faults if the container is null. -/
def removeMouseListeners (c : ControllerRes) : Option ControllerRes :=
  if c.containerPresent then
    some { c with moveListenerAttached := false, leaveListenerAttached := false }
  else none

/-- `this.gl.deleteProgram(this.program)` (line 550): faults if `gl` is
null. -/
def glDeleteProgram (c : ControllerRes) : Option ControllerRes :=
  if c.glPresent then some { c with programAlive := false } else none

/-- `this.gl.deleteTexture(this.texture)` (line 554): faults if `gl` is
null. -/
def glDeleteTexture (c : ControllerRes) : Option ControllerRes :=
  if c.glPresent then some { c with textureAlive := false } else none

/-- `destroy` (lines 538-556) with its four guards. -/
def destroy (c : ControllerRes) : Option ControllerRes := do
  let c1 := if c.animationFrameId.isSome then cancelFrame c else c
  let c2 ← if c1.containerPresent && c1.mouseMoveHandlerSet then removeMouseListeners c1
    else some c1
  let c3 ← if c2.glPresent && c2.programPresent then glDeleteProgram c2 else some c2
  let c4 ← if c3.texturePresent && c3.glPresent then glDeleteTexture c3 else some c3
  some c4

/-! ## Reachable pointer states and the bounding functions for C4

`Reachable` closes the zero initial state under the three events that
touch the pointer state: a mousemove (which the container only delivers
with the pointer inside its rect, hence the coordinate side conditions),
a mouseleave, and a frame of `render` with genuine `Math.random()` draws.

`Qh`/`Qi` are quadratic Lyapunov functions for the hover
(attraction 1/10) and idle (attraction 1/50) closed-loop update
matrices; both modes contract them by the factor 22/25 per frame.
`Kh`/`Ki` are the corresponding invariant levels under the bounded
disturbances (target offset at most 1/250 in magnitude, idle velocity
nudges at most 1/1000). -/

inductive Reachable : PointerState → Prop
  | init : Reachable initialState
  | move : ∀ (s : PointerState) (cx cy l tp w h : ℚ), Reachable s →
      0 < w → 0 < h → l ≤ cx → cx ≤ l + w → tp ≤ cy → cy ≤ tp + h →
      Reachable (mouseMoveHandler mouseSensitivity s cx cy l tp w h)
  | leave : ∀ s : PointerState, Reachable s → Reachable (mouseLeaveHandler s)
  | frame : ∀ (s : PointerState) (r : RandomDraws), Reachable s → drawsInRange r →
      Reachable (render s r)

def Qh (m v : ℚ) : ℚ := m^2 + (76/100)*m*v + 10*v^2

def Qi (m v : ℚ) : ℚ := m^2 + (785/100)*m*v + 51*v^2

def Kh : ℚ := 1/2000

def Ki : ℚ := 9/500

/-- The mode-dependent state invariant: target offsets bounded by half
the sensitivity, and the per-axis (offset, velocity) pair inside the
level set of the mode's Lyapunov function. -/
def Inv (s : PointerState) : Prop :=
  |s.targetMouseX| ≤ mouseSensitivity/2 ∧ |s.targetMouseY| ≤ mouseSensitivity/2 ∧
  (if s.isHovering then
    Qh s.mouseX s.velocityX ≤ Kh ∧ Qh s.mouseY s.velocityY ≤ Kh
  else
    Qi s.mouseX s.velocityX ≤ Ki ∧ Qi s.mouseY s.velocityY ≤ Ki)

/-- Random draws in which the rare glitch gate fires every frame with a
near-maximal positive nudge — each draw is a legitimate
`Math.random()` value. -/
def rGlitch : RandomDraws := ⟨0, 99/100, 99/100, 0, 0, 0⟩

end HeroCRT

namespace HeroCRT

/-! ## C1: state after pointer re-entry -/

/-- A concrete session: enter at (25,25) in a 100x100 container, one
frame, pointer leaves, then re-enters at (75,50). -/
def rMid : RandomDraws := ⟨1/2, 1/2, 1/2, 1/2, 1/2, 1/2⟩

def leftState : PointerState :=
  mouseLeaveHandler (render
    (mouseMoveHandler mouseSensitivity initialState 25 25 0 0 100 100) rMid)

def reentryState : PointerState :=
  mouseMoveHandler mouseSensitivity leftState 75 50 0 0 100 100

/-- C1 (counterexample): after the pointer leaves (`isHovering` is false)
and re-enters at a non-central point, the target offset at the first
tracked frame is NOT zero (nor are the smoothed offset and velocity), so
the claim that smoothed offset, target offset, and velocity are all
exactly zero at the first tracked frame after re-entry is false. -/
theorem c1_counterexample :
    leftState.isHovering = false ∧
    (render reentryState rMid).targetMouseX ≠ 0 ∧
    (render reentryState rMid).velocityX ≠ 0 ∧
    (render reentryState rMid).mouseX ≠ 0 := by
  refine ⟨rfl, ?_, ?_, ?_⟩ <;>
    norm_num [render, reentryState, leftState, mouseMoveHandler,
      mouseLeaveHandler, rMid, initialState, mouseSensitivity, momentum]

/-- C1 (amended): on a re-entry mousemove (`isHovering` was false), the
handler zeroes the smoothed offset and velocity, and the target offset
equals the fresh pointer position's centred, sensitivity-scaled offset —
which is zero exactly when the pointer re-enters at the container's
centre; stale pre-leave values never survive a re-entry. -/
theorem c1_reentry_reset (s : PointerState)
    (cx cy l tp w h : ℚ) (hs : s.isHovering = false) :
    (mouseMoveHandler mouseSensitivity s cx cy l tp w h).mouseX = 0 ∧
    (mouseMoveHandler mouseSensitivity s cx cy l tp w h).mouseY = 0 ∧
    (mouseMoveHandler mouseSensitivity s cx cy l tp w h).velocityX = 0 ∧
    (mouseMoveHandler mouseSensitivity s cx cy l tp w h).velocityY = 0 ∧
    (mouseMoveHandler mouseSensitivity s cx cy l tp w h).targetMouseX
      = ((cx - l) / w - 1/2) * mouseSensitivity ∧
    (mouseMoveHandler mouseSensitivity s cx cy l tp w h).targetMouseY
      = ((cy - tp) / h - 1/2) * mouseSensitivity ∧
    (cx = l + w/2 → 0 < w →
      (mouseMoveHandler mouseSensitivity s cx cy l tp w h).targetMouseX = 0) ∧
    (cy = tp + h/2 → 0 < h →
      (mouseMoveHandler mouseSensitivity s cx cy l tp w h).targetMouseY = 0) := by
  simp only [mouseMoveHandler, hs, Bool.not_false, if_true]
  refine ⟨trivial, trivial, trivial, trivial, trivial, trivial, ?_, ?_⟩
  · intro hc hw
    subst hc
    have hw0 : w ≠ 0 := ne_of_gt hw
    field_simp
    ring
  · intro hc hh
    subst hc
    have hh0 : h ≠ 0 := ne_of_gt hh
    field_simp
    ring

theorem c1_reentry_reset_witness :
    (mouseMoveHandler mouseSensitivity leftState 75 50 0 0 100 100).mouseX = 0 ∧
    (mouseMoveHandler mouseSensitivity leftState 75 50 0 0 100 100).velocityX = 0 :=
  have h := c1_reentry_reset leftState 75 50 0 0 100 100 rfl
  ⟨h.1, h.2.2.1⟩

/-! ## C2: target offset produced by mousemove -/

/-- C2: for a mousemove with the pointer inside a positively-sized
container, the produced target offset is the pointer position normalised
to 0..1 per axis, recentred to -0.5..0.5 and scaled by
`mouseSensitivity`; it is (0,0) at the exact centre, and it scales
linearly when the sensitivity is scaled by any factor `k`. -/
theorem c2_target_offset (k : ℚ) (s : PointerState)
    (cx cy l tp w h : ℚ) (hw : 0 < w) (hh : 0 < h) :
    (mouseMoveHandler mouseSensitivity s cx cy l tp w h).targetMouseX
      = ((cx - l) / w - 1/2) * mouseSensitivity ∧
    (mouseMoveHandler mouseSensitivity s cx cy l tp w h).targetMouseY
      = ((cy - tp) / h - 1/2) * mouseSensitivity ∧
    (cx = l + w/2 → (mouseMoveHandler mouseSensitivity s cx cy l tp w h).targetMouseX = 0) ∧
    (cy = tp + h/2 → (mouseMoveHandler mouseSensitivity s cx cy l tp w h).targetMouseY = 0) ∧
    (mouseMoveHandler (k * mouseSensitivity) s cx cy l tp w h).targetMouseX
      = k * (mouseMoveHandler mouseSensitivity s cx cy l tp w h).targetMouseX ∧
    (mouseMoveHandler (k * mouseSensitivity) s cx cy l tp w h).targetMouseY
      = k * (mouseMoveHandler mouseSensitivity s cx cy l tp w h).targetMouseY := by
  have hw0 : w ≠ 0 := ne_of_gt hw
  have hh0 : h ≠ 0 := ne_of_gt hh
  refine ⟨rfl, rfl, ?_, ?_, ?_, ?_⟩
  · intro hc; subst hc
    show ((l + w/2 - l) / w - 1/2) * mouseSensitivity = 0
    field_simp
    ring
  · intro hc; subst hc
    show ((tp + h/2 - tp) / h - 1/2) * mouseSensitivity = 0
    field_simp
    ring
  · show ((cx - l) / w - 1/2) * (k * mouseSensitivity)
      = k * (((cx - l) / w - 1/2) * mouseSensitivity)
    ring
  · show ((cy - tp) / h - 1/2) * (k * mouseSensitivity)
      = k * (((cy - tp) / h - 1/2) * mouseSensitivity)
    ring

theorem c2_target_offset_witness :
    (mouseMoveHandler mouseSensitivity initialState 70 30 0 0 100 100).targetMouseX
      = ((70 - 0) / 100 - 1/2) * mouseSensitivity :=
  (c2_target_offset 2 initialState 70 30 0 0 100 100 (by norm_num) (by norm_num)).1

/-! ## C3: momentum damping of velocity -/

/-- C3: every frame multiplies the velocity by the momentum factor 17/20
regardless of hover state, so in a frame whose target-minus-current delta
is zero and in which no idle perturbation fires (either because the
pointer hovers, or because both random gates fail), the new velocity is
exactly `momentum` times the old one and its magnitude is non-increasing
on each axis. -/
theorem c3_momentum_decay (s : PointerState) (r : RandomDraws)
    (hx : s.targetMouseX = s.mouseX) (hy : s.targetMouseY = s.mouseY)
    (hnop : s.isHovering = true ∨ (¬ r.g < 1/1000 ∧ ¬ r.t < 1/100)) :
    (render s r).velocityX = momentum * s.velocityX ∧
    (render s r).velocityY = momentum * s.velocityY ∧
    |(render s r).velocityX| ≤ |s.velocityX| ∧
    |(render s r).velocityY| ≤ |s.velocityY| := by
  have hvx : (render s r).velocityX = momentum * s.velocityX := by
    rcases hnop with hhov | ⟨hg, ht⟩
    · simp [render, hhov, hx]
      ring
    · simp only [one_div] at hg ht
      rcases hb : s.isHovering with _ | _
      · simp [render, hb, hg, ht, hx]
        ring
      · simp [render, hb, hx]
        ring
  have hvy : (render s r).velocityY = momentum * s.velocityY := by
    rcases hnop with hhov | ⟨hg, ht⟩
    · simp [render, hhov, hy]
      ring
    · simp only [one_div] at hg ht
      rcases hb : s.isHovering with _ | _
      · simp [render, hb, hg, ht, hy]
        ring
      · simp [render, hb, hy]
        ring
  have hmom : |momentum| = 17/20 := by norm_num [momentum]
  refine ⟨hvx, hvy, ?_, ?_⟩
  · rw [hvx, abs_mul, hmom]
    have := abs_nonneg s.velocityX
    linarith
  · rw [hvy, abs_mul, hmom]
    have := abs_nonneg s.velocityY
    linarith

theorem c3_momentum_decay_witness :
    (render { initialState with velocityX := 1, velocityY := -2, isHovering := true } rMid).velocityX
      = momentum * 1 ∧
    |(render { initialState with velocityX := 1, velocityY := -2, isHovering := true } rMid).velocityY|
      ≤ |(-2 : ℚ)| :=
  have h := c3_momentum_decay
    { initialState with velocityX := 1, velocityY := -2, isHovering := true } rMid
    rfl rfl (Or.inl rfl)
  ⟨h.1, h.2.2.2⟩

/-! ## C5: idle glitch perturbations -/

/-- C5: the per-frame velocity perturbation is applied only while the
pointer is not over the container, and consists of two mutually exclusive
events gated by separate random draws: a rarer event (probability gate
1/1000) adding the largernudge `(draw - 1/2) * 2/1000` per axis, and a
more frequent event (gate 1/100) adding the tiny nudge
`(draw - 1/2) * 5/10000`; while hovering the frame result is entirely
independent of the random draws. -/
theorem c5_idle_glitch (s : PointerState) (r r' : RandomDraws) :
    (s.isHovering = true → render s r = render s r') ∧
    (s.isHovering = false → r.g < 1/1000 →
      (render s r).velocityX
        = (s.velocityX + (r.gx - 1/2) * (2/1000)
            + (s.targetMouseX - s.mouseX) * (2/100)) * momentum ∧
      (render s r).velocityY
        = (s.velocityY + (r.gy - 1/2) * (2/1000)
            + (s.targetMouseY - s.mouseY) * (2/100)) * momentum) ∧
    (s.isHovering = false → ¬ r.g < 1/1000 → r.t < 1/100 →
      (render s r).velocityX
        = (s.velocityX + (r.tx - 1/2) * (5/10000)
            + (s.targetMouseX - s.mouseX) * (2/100)) * momentum ∧
      (render s r).velocityY
        = (s.velocityY + (r.ty - 1/2) * (5/10000)
            + (s.targetMouseY - s.mouseY) * (2/100)) * momentum) ∧
    (s.isHovering = false → ¬ r.g < 1/1000 → ¬ r.t < 1/100 →
      (render s r).velocityX
        = (s.velocityX + (s.targetMouseX - s.mouseX) * (2/100)) * momentum ∧
      (render s r).velocityY
        = (s.velocityY + (s.targetMouseY - s.mouseY) * (2/100)) * momentum) ∧
    ((1/1000 : ℚ) < 1/100 ∧ (5/10000 : ℚ) < 2/1000) := by
  refine ⟨?_, ?_, ?_, ?_, by norm_num⟩
  · intro hhov
    simp [render, hhov]
  · intro hhov hg
    simp only [one_div] at hg
    constructor <;> simp [render, hhov, hg]
  · intro hhov hg ht
    simp only [one_div] at hg ht
    constructor <;> simp [render, hhov, hg, ht]
  · intro hhov hg ht
    simp only [one_div] at hg ht
    constructor <;> simp [render, hhov, hg, ht]

theorem c5_idle_glitch_witness :
    render { initialState with isHovering := true } rMid
      = render { initialState with isHovering := true } ⟨0, 0, 0, 0, 0, 0⟩ ∧
    (render initialState ⟨0, 1, 1, 0, 0, 0⟩).velocityX
      = (0 + ((1 : ℚ) - 1/2) * (2/1000) + ((0 : ℚ) - 0) * (2/100)) * momentum :=
  have h1 := c5_idle_glitch { initialState with isHovering := true } rMid ⟨0, 0, 0, 0, 0, 0⟩
  have h2 := c5_idle_glitch initialState ⟨0, 1, 1, 0, 0, 0⟩ ⟨0, 1, 1, 0, 0, 0⟩
  ⟨h1.1 rfl, (h2.2.1 rfl (by norm_num)).1⟩

/-! ## C8: centre pixel never discarded -/

/-- C8: for every curvature value, the curvature warp fixes the exact
centre (1/2, 1/2) — the distance factor multiplies a zero offset — so the
warped coordinate stays inside [0,1] x [0,1] and the centre pixel is
never discarded by the out-of-range branch. -/
theorem c8_center_never_discarded (c : ℚ) :
    distort c (1/2, 1/2) = (1/2, 1/2) ∧ ¬ discarded c (1/2, 1/2) := by
  have hd : distort c (1/2, 1/2) = (1/2, 1/2) := by
    simp [distort]
  refine ⟨hd, ?_⟩
  simp only [discarded, hd]
  norm_num

/-! ## C6 and C10: container capture -/

lemma foldl_drawElement (cid : Nat) (crect : Rect) (width height : ℚ)
    (els : List MediaElement) :
    ∀ acc : List DrawOp,
      els.foldl (drawElement cid crect width height) acc
        = acc ++ (els.filter (elementKept cid crect width height)).map
            (elementOp crect) := by
  induction els with
  | nil => intro acc; simp
  | cons el rest ih =>
    intro acc
    rw [List.foldl_cons, ih]
    by_cases h1 : el.elemId = cid
    · simp [drawElement, elementKept, h1]
    · by_cases h2 : el.style.display ≠ "none" ∧ el.style.visibility ≠ "hidden" ∧
        el.style.opacity ≠ "0"
      · by_cases h3 : el.rect.left - crect.left + el.rect.width > 0 ∧
          el.rect.top - crect.top + el.rect.height > 0 ∧
          el.rect.left - crect.left < width ∧ el.rect.top - crect.top < height
        · by_cases h4 : el.drawFails
          · simp [drawElement, drawImage, elementKept, elementOp, h1, h2, h3, h4]
          · simp [drawElement, drawImage, elementKept, elementOp, h1, h2, h3, h4]
        · simp [drawElement, elementKept, h1, h2, h3]
      · simp [drawElement, elementKept, h1, h2]

/-- Shared characterization of a successful capture: with the container
and 2D context present, `captureContainer` completes (no exception
escapes the per-element try/catch) and draws exactly the elements that
are not the controller's own canvas, are visible, intersect the raster,
and do not fail to draw. -/
lemma captureContainer_eq (c : CaptureEnv) (k : Container)
    (hc : c.container = some k) (hctx : c.sourceContextPresent = true) :
    captureContainer c
      = some ⟨fillColor k,
          (k.elements.filter
            (elementKept c.canvasId k.rect c.sourceWidth c.sourceHeight)).map
            (elementOp k.rect)⟩ := by
  simp [captureContainer, hc, hctx, foldl_drawElement]

/-- C6: capture never throws: for every container with the capture
context available — including one holding elements whose draw fails
(e.g. a cross-origin-tainted image) — `captureContainer` returns a
snapshot drawing exactly the valid elements, and a failing element is
swallowed individually: the remaining elements before and after it are
captured exactly as they would be without it. -/
theorem c6_capture_never_throws (c : CaptureEnv) (k : Container)
    (hc : c.container = some k) (hctx : c.sourceContextPresent = true) :
    captureContainer c
      = some ⟨fillColor k,
          (k.elements.filter
            (elementKept c.canvasId k.rect c.sourceWidth c.sourceHeight)).map
            (elementOp k.rect)⟩ ∧
    (∀ (pre post : List MediaElement) (el : MediaElement),
      k.elements = pre ++ el :: post → el.drawFails = true →
      k.elements.filter (elementKept c.canvasId k.rect c.sourceWidth c.sourceHeight)
        = pre.filter (elementKept c.canvasId k.rect c.sourceWidth c.sourceHeight)
          ++ post.filter (elementKept c.canvasId k.rect c.sourceWidth c.sourceHeight)) := by
  refine ⟨captureContainer_eq c k hc hctx, ?_⟩
  intro pre post el hsplit hfail
  rw [hsplit, List.filter_append, List.filter_cons]
  simp [elementKept, hfail]

/-- A concrete capture: a 100x80 container with a visible good image and
a visible tainted image whose draw throws. -/
def goodImg : MediaElement :=
  ⟨2, ⟨"block", "visible", "1"⟩, ⟨10, 10, 30, 20⟩, false⟩

def taintedImg : MediaElement :=
  ⟨3, ⟨"block", "visible", "1"⟩, ⟨50, 10, 30, 20⟩, true⟩

def exampleContainer : Container :=
  ⟨⟨0, 0, 100, 80⟩, "", [goodImg, taintedImg]⟩

def exampleEnv : CaptureEnv :=
  ⟨some exampleContainer, true, 1, 100, 80⟩

theorem c6_capture_never_throws_witness :
    (captureContainer exampleEnv).isSome = true ∧
    captureContainer exampleEnv
      = some ⟨"#000000", [⟨2, 10, 10, 30, 20⟩]⟩ := by
  have h := (c6_capture_never_throws exampleEnv exampleContainer rfl rfl).1
  rw [h]
  refine ⟨rfl, ?_⟩
  norm_num [exampleContainer, exampleEnv, goodImg, taintedImg, elementKept,
    elementOp, fillColor, List.filter_cons]
  rw [if_pos (by decide)]
  norm_num [elementOp, goodImg]

/-- C10: the controller's own output canvas is never drawn into the
snapshot: capture with the own-canvas element present anywhere in the
media list (with arbitrary style, bounds and draw behaviour) equals
capture without it, and no recorded draw carries the canvas's identity —
the snapshot is independent of the effect's own rendered output. -/
theorem c10_own_canvas_skipped (c : CaptureEnv) (k : Container)
    (pre post : List MediaElement) (el : MediaElement)
    (hc : c.container = some k) (hctx : c.sourceContextPresent = true)
    (hel : el.elemId = c.canvasId)
    (hsplit : k.elements = pre ++ el :: post) :
    captureContainer c
      = captureContainer { c with container := some { k with elements := pre ++ post } } ∧
    (∀ snap, captureContainer c = some snap →
      ∀ op ∈ snap.ops, op.elemId ≠ c.canvasId) := by
  have hc2 : captureContainer { c with container := some { k with elements := pre ++ post } }
      = some ⟨fillColor { k with elements := pre ++ post },
          ((pre ++ post).filter
            (elementKept c.canvasId k.rect c.sourceWidth c.sourceHeight)).map
            (elementOp k.rect)⟩ :=
    captureContainer_eq _ _ rfl hctx
  have hfilter :
      k.elements.filter (elementKept c.canvasId k.rect c.sourceWidth c.sourceHeight)
        = (pre ++ post).filter (elementKept c.canvasId k.rect c.sourceWidth c.sourceHeight) := by
    rw [hsplit, List.filter_append, List.filter_append, List.filter_cons]
    simp [elementKept, hel]
  constructor
  · rw [captureContainer_eq c k hc hctx, hc2, hfilter]
    rfl
  · intro snap hsnap op hop
    rw [captureContainer_eq c k hc hctx] at hsnap
    injection hsnap with hsnap
    subst hsnap
    simp only [List.mem_map, List.mem_filter] at hop
    obtain ⟨e, ⟨_, hkept⟩, hope⟩ := hop
    subst hope
    simp only [elementKept, Bool.and_eq_true, Bool.not_eq_eq_eq_not, Bool.not_true,
      decide_eq_false_iff_not] at hkept
    exact hkept.1.1.1

theorem c10_own_canvas_skipped_witness :
    captureContainer ⟨some ⟨⟨0, 0, 100, 80⟩, "", [⟨1, ⟨"block", "visible", "1"⟩, ⟨0, 0, 100, 80⟩, false⟩, goodImg]⟩, true, 1, 100, 80⟩
      = captureContainer ⟨some ⟨⟨0, 0, 100, 80⟩, "", [goodImg]⟩, true, 1, 100, 80⟩ :=
  (c10_own_canvas_skipped
    ⟨some ⟨⟨0, 0, 100, 80⟩, "", [⟨1, ⟨"block", "visible", "1"⟩, ⟨0, 0, 100, 80⟩, false⟩, goodImg]⟩, true, 1, 100, 80⟩
    ⟨⟨0, 0, 100, 80⟩, "", [⟨1, ⟨"block", "visible", "1"⟩, ⟨0, 0, 100, 80⟩, false⟩, goodImg]⟩
    [] [goodImg] ⟨1, ⟨"block", "visible", "1"⟩, ⟨0, 0, 100, 80⟩, false⟩
    rfl rfl rfl rfl).1

/-! ## C7: debounced resize -/

lemma debounceFires_burst (ts : List ℚ) :
    ∀ tm : ℚ, burst (tm :: ts) →
      debounceFires ts (some (tm + 100)) = [ts.getLastD tm + 100] := by
  induction ts with
  | nil => intro tm _; rfl
  | cons u rest ih =>
    intro tm hb
    obtain ⟨h1, h2, h3⟩ := hb
    have hnf : ¬ tm + 100 ≤ u := by linarith
    simp only [debounceFires, hnf, if_false, List.nil_append, List.getLastD_cons]
    exact ih u h3

/-- C7: for every burst of resize events whose consecutive gaps are
below the 100ms debounce window, exactly one re-capture fires, at 100ms
after the last event of the burst — however many events the burst
contains. -/
theorem c7_debounce_single_recapture (tm : ℚ) (ts : List ℚ)
    (h : burst (tm :: ts)) :
    recaptureTimes (tm :: ts) = [ts.getLastD tm + 100] ∧
    (recaptureTimes (tm :: ts)).length = 1 := by
  have he : recaptureTimes (tm :: ts) = debounceFires ts (some (tm + 100)) := rfl
  rw [he, debounceFires_burst ts tm h]
  exact ⟨rfl, rfl⟩

theorem c7_debounce_single_recapture_witness :
    recaptureTimes [0, 30, 90] = [190] ∧
    (recaptureTimes [0, 30, 90]).length = 1 := by
  have h := c7_debounce_single_recapture 0 [30, 90] (by norm_num [burst])
  constructor
  · rw [h.1]; norm_num
  · exact h.2

/-! ## C9: idempotent, fault-free teardown -/

/-- The total outcome of one `destroy` call. -/
lemma destroy_eq (c : ControllerRes) :
    destroy c = some
      { c with
        framePending := if c.animationFrameId.isSome then false else c.framePending,
        moveListenerAttached :=
          if c.containerPresent && c.mouseMoveHandlerSet then false
          else c.moveListenerAttached,
        leaveListenerAttached :=
          if c.containerPresent && c.mouseMoveHandlerSet then false
          else c.leaveListenerAttached,
        programAlive :=
          if c.glPresent && c.programPresent then false else c.programAlive,
        textureAlive :=
          if c.texturePresent && c.glPresent then false else c.textureAlive } := by
  obtain ⟨af, cp, mh, gl, pp, tp, fp, ml, ll, pa, ta⟩ := c
  cases af <;> cases cp <;> cases mh <;> cases gl <;> cases pp <;> cases tp <;>
    simp [destroy, cancelFrame, removeMouseListeners, glDeleteProgram,
      glDeleteTexture]

/-- C9: `destroy` never faults — including on controllers whose
initialization partially failed (missing container, no WebGL context,
null program or texture) — and is idempotent: its single call succeeds,
and calling it again on the destroyed controller succeeds and leaves the
state exactly as after the first call. -/
theorem c9_destroy_idempotent (c : ControllerRes) :
    ∃ c1 : ControllerRes, destroy c = some c1 ∧ destroy c1 = some c1 := by
  obtain ⟨af, cp, mh, gl, pp, tp, fp, ml, ll, pa, ta⟩ := c
  refine ⟨_, destroy_eq _, ?_⟩
  rw [destroy_eq]
  cases af <;> cases cp <;> cases mh <;> cases gl <;> cases pp <;> cases tp <;>
    simp

/-! ## C4: boundedness of the reachable pointer states -/

lemma qh_nonneg (m v : ℚ) : 0 ≤ Qh m v := by
  have h : Qh m v = (m + (38/100)*v)^2 + (24639/2500)*v^2 := by
    unfold Qh; ring
  nlinarith [sq_nonneg (m + (38/100)*v), sq_nonneg v]

lemma qi_nonneg (m v : ℚ) : 0 ≤ Qi m v := by
  have h : Qi m v = (m + (785/200)*v)^2 + (56951/1600)*v^2 := by
    unfold Qi; ring
  nlinarith [sq_nonneg (m + (785/200)*v), sq_nonneg v]

/-- One hover frame contracts the `Qh` level set: the closed-loop matrix
for attraction 1/10 shrinks `Qh` by 22/25, and the disturbance
(17/200 times the target offset) is small enough to keep the level
`Kh`. -/
lemma qh_step (m v d : ℚ) (hq : Qh m v ≤ Kh)
    (hd1 : -(17/50000) ≤ d) (hd2 : d ≤ 17/50000) :
    Qh ((183/200)*m + (17/20)*v + d) (-(17/200)*m + (17/20)*v + d) ≤ Kh := by
  have hdsq : d^2 ≤ (17/50000)^2 := by nlinarith
  have hA : (22/25) * Qh m v
        - Qh ((183/200)*m + (17/20)*v) (-(17/200)*m + (17/20)*v)
      = (14817/500000)*(m + (5530/14817)*v)^2 + (1108579/3704250)*v^2 := by
    unfold Qh; ring
  have hA' : Qh ((183/200)*m + (17/20)*v) (-(17/200)*m + (17/20)*v)
      ≤ (22/25) * Qh m v := by
    nlinarith [sq_nonneg (m + (5530/14817)*v), sq_nonneg v]
  have hB : (11/10) * Qh ((183/200)*m + (17/20)*v) (-(17/200)*m + (17/20)*v)
        + 11 * Qh d d
        - Qh ((183/200)*m + (17/20)*v + d) (-(17/200)*m + (17/20)*v + d)
      = 10 * Qh ((1/10)*((183/200)*m + (17/20)*v) - d)
          ((1/10)*(-(17/200)*m + (17/20)*v) - d) := by
    unfold Qh; ring
  have hC := qh_nonneg ((1/10)*((183/200)*m + (17/20)*v) - d)
    ((1/10)*(-(17/200)*m + (17/20)*v) - d)
  have hQd : Qh d d = (294/25)*d^2 := by unfold Qh; ring
  have hKh : Kh = 1/2000 := rfl
  nlinarith [hA', hB, hC, hQd, hq, hdsq]

/-- One idle frame contracts the `Qi` level set: the closed-loop matrix
for attraction 1/50 shrinks `Qi` by 22/25, and the disturbance (damped
glitch nudge plus 17/1000 times the target offset) keeps the level
`Ki`. -/
lemma qi_step (m v d : ℚ) (hq : Qi m v ≤ Ki)
    (hd1 : -(459/500000) ≤ d) (hd2 : d ≤ 459/500000) :
    Qi ((983/1000)*m + (17/20)*v + d) (-(17/1000)*m + (17/20)*v + d) ≤ Ki := by
  have hdsq : d^2 ≤ (459/500000)^2 := by nlinarith
  have hA : (22/25) * Qi m v
        - Qi ((983/1000)*m + (17/20)*v) (-(17/1000)*m + (17/20)*v)
      = (603067/20000000)*(m + (2651650/603067)*v)^2 + (63648751/60306700)*v^2 := by
    unfold Qi; ring
  have hA' : Qi ((983/1000)*m + (17/20)*v) (-(17/1000)*m + (17/20)*v)
      ≤ (22/25) * Qi m v := by
    nlinarith [sq_nonneg (m + (2651650/603067)*v), sq_nonneg v]
  have hB : (11/10) * Qi ((983/1000)*m + (17/20)*v) (-(17/1000)*m + (17/20)*v)
        + 11 * Qi d d
        - Qi ((983/1000)*m + (17/20)*v + d) (-(17/1000)*m + (17/20)*v + d)
      = 10 * Qi ((1/10)*((983/1000)*m + (17/20)*v) - d)
          ((1/10)*(-(17/1000)*m + (17/20)*v) - d) := by
    unfold Qi; ring
  have hC := qi_nonneg ((1/10)*((983/1000)*m + (17/20)*v) - d)
    ((1/10)*(-(17/1000)*m + (17/20)*v) - d)
  have hQd : Qi d d = (1197/20)*d^2 := by unfold Qi; ring
  have hKi : Ki = 9/500 := rfl
  nlinarith [hA', hB, hC, hQd, hq, hdsq]

/-- Leaving hover keeps boundedness: the idle Lyapunov function is at
most 26/5 times the hover one, and 26/5 of the hover level is well
inside the idle level. -/
lemma qi_of_qh (m v : ℚ) (h : Qh m v ≤ Kh) : Qi m v ≤ Ki := by
  have hident : (26/5) * Qh m v - Qi m v
      = (21/5)*(m - (1949/4200)*v)^2 + (401399/4200000)*v^2 := by
    unfold Qh Qi; ring
  have hKh : Kh = 1/2000 := rfl
  have hKi : Ki = 9/500 := rfl
  nlinarith [sq_nonneg (m - (1949/4200)*v), sq_nonneg v, h]

/-- A mousemove delivered with the pointer inside the container produces
a target offset of magnitude at most half the sensitivity. -/
lemma target_bound (cx l w : ℚ) (hw : 0 < w) (h1 : l ≤ cx) (h2 : cx ≤ l + w) :
    |((cx - l) / w - 1/2) * mouseSensitivity| ≤ mouseSensitivity/2 := by
  have hx0 : 0 ≤ (cx - l)/w := div_nonneg (by linarith) hw.le
  have hx1 : (cx - l)/w ≤ 1 := by
    rw [div_le_one hw]; linarith
  rw [abs_le]
  constructor <;> norm_num [mouseSensitivity] <;> linarith

/-- `render` never changes the target offset or the hover flag. -/
lemma render_keeps (s : PointerState) (r : RandomDraws) :
    (render s r).targetMouseX = s.targetMouseX ∧
    (render s r).targetMouseY = s.targetMouseY ∧
    (render s r).isHovering = s.isHovering := by
  simp only [render]
  split_ifs <;> simp_all

/-- The mode invariant holds along every reachable state. -/
lemma inv_reachable (s : PointerState) (h : Reachable s) : Inv s := by
  induction h with
  | init =>
    refine ⟨by norm_num [initialState, mouseSensitivity],
      by norm_num [initialState, mouseSensitivity], ?_⟩
    simp only [Inv, initialState]
    norm_num [Qi, Ki]
  | move s cx cy l tp w h hr hw hh hxl hxr hyt hyb ih =>
    obtain ⟨ihTx, ihTy, ihQ⟩ := ih
    have hTx : (mouseMoveHandler mouseSensitivity s cx cy l tp w h).targetMouseX
        = ((cx - l)/w - 1/2) * mouseSensitivity := rfl
    have hTy : (mouseMoveHandler mouseSensitivity s cx cy l tp w h).targetMouseY
        = ((cy - tp)/h - 1/2) * mouseSensitivity := rfl
    have hbv : (mouseMoveHandler mouseSensitivity s cx cy l tp w h).isHovering = true := by
      by_cases hb : s.isHovering <;> simp [mouseMoveHandler, hb]
    refine ⟨?_, ?_, ?_⟩
    · rw [hTx]; exact target_bound cx l w hw hxl hxr
    · rw [hTy]; exact target_bound cy tp h hh hyt hyb
    · rw [hbv]
      simp only [if_true]
      by_cases hb : s.isHovering
      · have hm : (mouseMoveHandler mouseSensitivity s cx cy l tp w h).mouseX
            = s.mouseX := by simp [mouseMoveHandler, hb]
        have hm2 : (mouseMoveHandler mouseSensitivity s cx cy l tp w h).mouseY
            = s.mouseY := by simp [mouseMoveHandler, hb]
        have hv : (mouseMoveHandler mouseSensitivity s cx cy l tp w h).velocityX
            = s.velocityX := by simp [mouseMoveHandler, hb]
        have hv2 : (mouseMoveHandler mouseSensitivity s cx cy l tp w h).velocityY
            = s.velocityY := by simp [mouseMoveHandler, hb]
        rw [hm, hm2, hv, hv2]
        rw [hb] at ihQ
        simpa using ihQ
      · have hm : (mouseMoveHandler mouseSensitivity s cx cy l tp w h).mouseX
            = 0 := by simp [mouseMoveHandler, hb]
        have hm2 : (mouseMoveHandler mouseSensitivity s cx cy l tp w h).mouseY
            = 0 := by simp [mouseMoveHandler, hb]
        have hv : (mouseMoveHandler mouseSensitivity s cx cy l tp w h).velocityX
            = 0 := by simp [mouseMoveHandler, hb]
        have hv2 : (mouseMoveHandler mouseSensitivity s cx cy l tp w h).velocityY
            = 0 := by simp [mouseMoveHandler, hb]
        rw [hm, hm2, hv, hv2]
        constructor <;> norm_num [Qh, Kh]
  | leave s hr ih =>
    obtain ⟨ihTx, ihTy, ihQ⟩ := ih
    refine ⟨ihTx, ihTy, ?_⟩
    simp only [mouseLeaveHandler, if_false]
    by_cases hb : s.isHovering
    · rw [hb] at ihQ
      simp only [if_true] at ihQ
      simp only [Bool.false_eq_true, if_false]
      exact ⟨qi_of_qh _ _ ihQ.1, qi_of_qh _ _ ihQ.2⟩
    · rw [Bool.not_eq_true] at hb
      rw [hb] at ihQ
      simp only [Bool.false_eq_true, if_false] at ihQ ⊢
      exact ihQ
  | frame s r hr hdr ih =>
    obtain ⟨ihTx, ihTy, ihQ⟩ := ih
    obtain ⟨hkTx, hkTy, hkB⟩ := render_keeps s r
    have hTx1 : -(1/250) ≤ s.targetMouseX ∧ s.targetMouseX ≤ 1/250 := by
      have := abs_le.mp ihTx
      norm_num [mouseSensitivity] at this
      exact this
    have hTy1 : -(1/250) ≤ s.targetMouseY ∧ s.targetMouseY ≤ 1/250 := by
      have := abs_le.mp ihTy
      norm_num [mouseSensitivity] at this
      exact this
    refine ⟨hkTx ▸ ihTx, hkTy ▸ ihTy, ?_⟩
    rw [hkB]
    by_cases hb : s.isHovering
    · -- hover frame: no glitch, attraction 1/10
      rw [hb] at ihQ ⊢
      simp only [if_true] at ihQ ⊢
      have hvx : (render s r).velocityX
          = -(17/200)*s.mouseX + (17/20)*s.velocityX + (17/200)*s.targetMouseX := by
        simp [render, hb, momentum]; ring
      have hmx : (render s r).mouseX
          = (183/200)*s.mouseX + (17/20)*s.velocityX + (17/200)*s.targetMouseX := by
        simp [render, hb, momentum]; ring
      have hvy : (render s r).velocityY
          = -(17/200)*s.mouseY + (17/20)*s.velocityY + (17/200)*s.targetMouseY := by
        simp [render, hb, momentum]; ring
      have hmy : (render s r).mouseY
          = (183/200)*s.mouseY + (17/20)*s.velocityY + (17/200)*s.targetMouseY := by
        simp [render, hb, momentum]; ring
      rw [hvx, hmx, hvy, hmy]
      constructor
      · exact qh_step _ _ _ ihQ.1 (by linarith [hTx1.1]) (by linarith [hTx1.2])
      · exact qh_step _ _ _ ihQ.2 (by linarith [hTy1.1]) (by linarith [hTy1.2])
    · -- idle frame: one of three glitch branches, attraction 1/50
      rw [Bool.not_eq_true] at hb
      rw [hb] at ihQ ⊢
      simp only [Bool.false_eq_true, if_false] at ihQ ⊢
      have key : ∀ pX pY : ℚ,
          -(1/1000) ≤ pX → pX ≤ 1/1000 → -(1/1000) ≤ pY → pY ≤ 1/1000 →
          (render s r).velocityX = -(17/1000)*s.mouseX + (17/20)*s.velocityX
            + ((17/20)*pX + (17/1000)*s.targetMouseX) →
          (render s r).mouseX = (983/1000)*s.mouseX + (17/20)*s.velocityX
            + ((17/20)*pX + (17/1000)*s.targetMouseX) →
          (render s r).velocityY = -(17/1000)*s.mouseY + (17/20)*s.velocityY
            + ((17/20)*pY + (17/1000)*s.targetMouseY) →
          (render s r).mouseY = (983/1000)*s.mouseY + (17/20)*s.velocityY
            + ((17/20)*pY + (17/1000)*s.targetMouseY) →
          Qi (render s r).mouseX (render s r).velocityX ≤ Ki ∧
          Qi (render s r).mouseY (render s r).velocityY ≤ Ki := by
        intro pX pY hp1 hp2 hp3 hp4 hvx hmx hvy hmy
        rw [hvx, hmx, hvy, hmy]
        constructor
        · exact qi_step _ _ _ ihQ.1 (by linarith [hTx1.1]) (by linarith [hTx1.2])
        · exact qi_step _ _ _ ihQ.2 (by linarith [hTy1.1]) (by linarith [hTy1.2])
      by_cases hg : r.g < 1/1000
      · -- rare larger nudge
        obtain ⟨-, hgx, hgy, -, -, -⟩ := hdr
        have hg' := hg
        simp only [one_div] at hg'
        refine key ((r.gx - 1/2) * (2/1000)) ((r.gy - 1/2) * (2/1000))
          (by obtain ⟨a, b⟩ := hgx; linarith) (by obtain ⟨a, b⟩ := hgx; linarith)
          (by obtain ⟨a, b⟩ := hgy; linarith) (by obtain ⟨a, b⟩ := hgy; linarith)
          ?_ ?_ ?_ ?_ <;> (simp [render, hb, hg', momentum]; ring)
      · by_cases ht : r.t < 1/100
        · -- more frequent tiny nudge
          obtain ⟨-, -, -, -, htx, hty⟩ := hdr
          have hg' := hg
          have ht' := ht
          simp only [one_div] at hg' ht'
          refine key ((r.tx - 1/2) * (5/10000)) ((r.ty - 1/2) * (5/10000))
            (by obtain ⟨a, b⟩ := htx; linarith) (by obtain ⟨a, b⟩ := htx; linarith)
            (by obtain ⟨a, b⟩ := hty; linarith) (by obtain ⟨a, b⟩ := hty; linarith)
            ?_ ?_ ?_ ?_ <;> (simp [render, hb, hg', ht', momentum]; ring)
        · -- no glitch this frame
          have hg' := hg
          have ht' := ht
          simp only [one_div] at hg' ht'
          refine key 0 0 (by norm_num) (by norm_num) (by norm_num) (by norm_num)
            ?_ ?_ ?_ ?_ <;> (simp [render, hb, hg', ht', momentum]; ring)

lemma bounds_of_qh (m v : ℚ) (h : Qh m v ≤ Kh) : m^2 ≤ 3/50 ∧ v^2 ≤ 3/5000 := by
  simp only [Qh, Kh] at h
  constructor
  · nlinarith [sq_nonneg (m + (1938/100)*v), sq_nonneg v]
  · nlinarith [sq_nonneg (m + (38/100)*v), sq_nonneg v]

lemma bounds_of_qi (m v : ℚ) (h : Qi m v ≤ Ki) : m^2 ≤ 3/50 ∧ v^2 ≤ 3/5000 := by
  simp only [Qi, Ki] at h
  constructor
  · nlinarith [sq_nonneg (m + (1413/110)*v), sq_nonneg v]
  · nlinarith [sq_nonneg (m + (785/200)*v), sq_nonneg v]

/-- C4 (counterexample): the smoothed offset does NOT stay within the
bounds implied by `mouseSensitivity`: five idle frames in which the rare
glitch fires with near-maximal draws — each a legitimate
`Math.random()` outcome — push `mouseX` beyond `mouseSensitivity`
itself (and a fortiori beyond the half-sensitivity target range) from
the initial state. -/
theorem c4_counterexample :
    Reachable ((fun s => render s rGlitch)^[5] initialState) ∧
    mouseSensitivity < ((fun s => render s rGlitch)^[5] initialState).mouseX := by
  constructor
  · have hdr : drawsInRange rGlitch := by
      norm_num [drawsInRange, unitRange, rGlitch]
    simp only [Function.iterate_succ, Function.iterate_zero, Function.comp_apply,
      id_eq]
    exact .frame _ _ (.frame _ _ (.frame _ _ (.frame _ _ (.frame _ _ .init hdr)
      hdr) hdr) hdr) hdr
  · norm_num [Function.iterate_succ, Function.iterate_zero, Function.comp_apply,
      id_eq, render, rGlitch, initialState, momentum, mouseSensitivity]

/-- C4 (amended): the smoothed offset can leave the range implied by
`mouseSensitivity` (hover overshoot and idle glitch drift), but every
reachable state is bounded for all time: the target offset magnitude
never exceeds `mouseSensitivity/2`, and the smoothed offset and the
velocity satisfy the explicit bounds `offset^2 ≤ 3/50` and
`velocity^2 ≤ 3/5000` on each axis — so there is no unbounded drift. -/
theorem c4_reachable_bounded (s : PointerState) (h : Reachable s) :
    s.targetMouseX^2 ≤ (mouseSensitivity/2)^2 ∧
    s.targetMouseY^2 ≤ (mouseSensitivity/2)^2 ∧
    s.mouseX^2 ≤ 3/50 ∧ s.mouseY^2 ≤ 3/50 ∧
    s.velocityX^2 ≤ 3/5000 ∧ s.velocityY^2 ≤ 3/5000 := by
  obtain ⟨hTx, hTy, hQ⟩ := inv_reachable s h
  have hTx2 : s.targetMouseX^2 ≤ (mouseSensitivity/2)^2 := by
    have h1 := abs_le.mp hTx
    have h2 : (0:ℚ) < mouseSensitivity/2 := by norm_num [mouseSensitivity]
    nlinarith [h1.1, h1.2]
  have hTy2 : s.targetMouseY^2 ≤ (mouseSensitivity/2)^2 := by
    have h1 := abs_le.mp hTy
    have h2 : (0:ℚ) < mouseSensitivity/2 := by norm_num [mouseSensitivity]
    nlinarith [h1.1, h1.2]
  refine ⟨hTx2, hTy2, ?_⟩
  by_cases hb : s.isHovering
  · rw [hb] at hQ
    simp only [if_true] at hQ
    obtain ⟨hx, hy⟩ := hQ
    obtain ⟨hmx, hvx⟩ := bounds_of_qh _ _ hx
    obtain ⟨hmy, hvy⟩ := bounds_of_qh _ _ hy
    exact ⟨hmx, hmy, hvx, hvy⟩
  · rw [Bool.not_eq_true] at hb
    rw [hb] at hQ
    simp only [Bool.false_eq_true, if_false] at hQ
    obtain ⟨hx, hy⟩ := hQ
    obtain ⟨hmx, hvx⟩ := bounds_of_qi _ _ hx
    obtain ⟨hmy, hvy⟩ := bounds_of_qi _ _ hy
    exact ⟨hmx, hmy, hvx, hvy⟩

theorem c4_reachable_bounded_witness :
    initialState.mouseX^2 ≤ 3/50 ∧ initialState.velocityX^2 ≤ 3/5000 :=
  have h := c4_reachable_bounded initialState Reachable.init
  ⟨h.2.2.1, h.2.2.2.2.1⟩

end HeroCRT
